import Mathlib

/-!
Verification of the `pv-hot-water` IPC core against its specification.

The development shallowly embeds the Python modules
`pvhotwatercore/common/ipc/{sessionlayerstruct,structs,client,server}.py`.
Byte strings are `List Nat`; the ambient wall clock is passed as an explicit
`now : Nat` argument wherever the Python code could read `time.time()`;
the Python standard-library collaborators `pickle.dumps`/`pickle.loads` and
`hmac.new(...).digest()` are parameters of the codec (they are not code of
this repository), instantiated below with concrete executable models for
closed evaluations.
-/

namespace PVHW

/-- Byte strings on the wire (`bytes` in Python); each entry is one byte. -/
abbrev Bytes := List Nat

/-! ## Session layer: `sessionlayerstruct.py` -/

/-- `_Hmac.digest_len()` in `sessionlayerstruct.py`: SHA3-256 digests are 32 bytes. -/
def digest_len : Nat := 32

/-- The mutable state of a `CoreIPCUnit` instance (`CoreIPCUnit.__init__`):
the transported object, the HMAC secret, the timestamp resolution
(default 5), and the timestamp field (initially `None`, set by `to_bytes`).
The timestamp is `int(time.time()) % resolution`, a nonnegative integer. -/
structure CoreIPCUnit (T : Type) where
  obj : T
  secret : Bytes
  timestamp_resolution : Nat := 5
  timestamp : Option Nat := none
  deriving Repr, DecidableEq

/-- Decode failures of `CoreIPCUnit.from_bytes`: `ValueError` on HMAC
mismatch, `TypeError` when unpickling does not yield a `CoreIPCUnit`. -/
inductive DecodeError where
  | valueError
  | typeError
  deriving Repr, DecidableEq

/-- `CoreIPCUnit.to_bytes`, parametrized by the library collaborators
`hmacD` (for `_Hmac.hmac_digest(message, secret)`) and `dumps` (for
`pickle.dumps(self)`), and by the clock value `now`.  It first sets
`self.timestamp = int(time.time()) % self.timestamp_resolution`, then
returns `pickle.dumps(self) + hmac_digest(message_bytes, self.secret)`.
The updated unit is returned alongside the bytes (the Python method
mutates `self`). -/
def to_bytes (hmacD : Bytes → Bytes → Bytes) (dumps : CoreIPCUnit T → Bytes)
    (u : CoreIPCUnit T) (now : Nat) : CoreIPCUnit T × Bytes :=
  let u' : CoreIPCUnit T := { u with timestamp := some (now % u.timestamp_resolution) }
  let message_bytes := dumps u'
  (u', message_bytes ++ hmacD message_bytes u.secret)

/-- `CoreIPCUnit.from_bytes(ser, secret)`, parametrized by `hmacD` and
`loads` (for `pickle.loads`; `none` covers both an unpicklable payload and
the `isinstance(obj, CoreIPCUnit)` check failing).  The clock `now` is in
scope, as for any Python code, but the source body never reads it.
Faithfully to the source, `obj_bytes` is `ser[:digest_len]` — the FIRST 32
bytes — while `hmac_bytes` is `ser[-digest_len:]`, and the digest is
recomputed over `obj_bytes`. -/
def from_bytes (hmacD : Bytes → Bytes → Bytes) (loads : Bytes → Option (CoreIPCUnit T))
    (ser : Bytes) (secret : Bytes) (_now : Nat) : Except DecodeError (CoreIPCUnit T) :=
  let obj_bytes : Bytes := ser.take digest_len
  let hmac_bytes : Bytes := ser.drop (ser.length - digest_len)
  if hmac_bytes = hmacD obj_bytes secret then
    match loads obj_bytes with
    | some u => .ok u
    | none => .error .typeError
  else
    .error .valueError

/-- Modelled from the spec: the decode step as §4.1 describes it —
"splits the trailing 32 bytes as `tag`, treats everything before it as
`payload_and_timestamp_bytes`", i.e. the slice is `ser[:-digest_len]`
rather than the source's `ser[:digest_len]`.  Used to compare the
spec's intended decoder with the one in the source. -/
def from_bytes_spec (hmacD : Bytes → Bytes → Bytes) (loads : Bytes → Option (CoreIPCUnit T))
    (ser : Bytes) (secret : Bytes) : Except DecodeError (CoreIPCUnit T) :=
  let obj_bytes : Bytes := ser.take (ser.length - digest_len)
  let hmac_bytes : Bytes := ser.drop (ser.length - digest_len)
  if hmac_bytes = hmacD obj_bytes secret then
    match loads obj_bytes with
    | some u => .ok u
    | none => .error .typeError
  else
    .error .valueError

/-! ### Concrete models of the standard-library collaborators

`pickle` and `hmac` are Python standard-library modules, not code of this
repository.  For closed evaluations we instantiate them with executable
stand-ins that have the properties the repository relies on: the pickle
model is a self-delimiting injective encoding with a left inverse, whose
output (like a real pickle of a `CoreIPCUnit`, which carries the class
path) always exceeds the 32-byte digest length; the HMAC model is a
deterministic 32-byte digest. -/

/-- A fixed 28-byte preamble, standing for the pickle protocol header and
class-path bytes that every real `pickle.dumps(CoreIPCUnit(...))` carries. -/
def pickleHeader : Bytes := List.replicate 28 80

/-- Model of `pickle.dumps` on `CoreIPCUnit Nat`: header, then the fields,
with the secret length-prefixed and the optional timestamp tagged. -/
def modelDumps (u : CoreIPCUnit Nat) : Bytes :=
  pickleHeader ++ u.obj :: u.secret.length :: u.secret
    ++ u.timestamp_resolution :: (match u.timestamp with
      | none => [0]
      | some t => [1, t])

/-- Model of `pickle.loads` followed by the `isinstance` check: the left
inverse of `modelDumps`, `none` on anything else. -/
def modelLoads (b : Bytes) : Option (CoreIPCUnit Nat) :=
  if b.take 28 = pickleHeader then
    match b.drop 28 with
    | obj :: slen :: rest =>
      if slen ≤ rest.length then
        match rest.drop slen with
        | [tr, 0] => some ⟨obj, rest.take slen, tr, none⟩
        | [tr, 1, t] => some ⟨obj, rest.take slen, tr, some t⟩
        | _ => none
      else none
    | _ => none
  else none

/-- Model of `_Hmac.hmac_digest(message, secret)`: a deterministic 32-byte
digest depending on both arguments. -/
def modelHmac (message : Bytes) (secret : Bytes) : Bytes :=
  (List.range 32).map (fun i => (message.length + 3 * message.sum + 5 * secret.sum + i) % 256)

theorem modelHmac_length (m s : Bytes) : (modelHmac m s).length = 32 := by
  simp [modelHmac]

theorem modelLoads_modelDumps (u : CoreIPCUnit Nat) :
    modelLoads (modelDumps u) = some u := by
  obtain ⟨obj, secret, tr, ts⟩ := u
  have hh : pickleHeader.length = 28 := by simp [pickleHeader]
  have hdumps : modelDumps ⟨obj, secret, tr, ts⟩
      = pickleHeader ++ obj :: secret.length :: (secret ++ tr :: (match ts with
        | none => [0] | some t => [1, t])) := by
    simp [modelDumps]
  rw [modelLoads, hdumps]
  rw [List.take_left' hh, List.drop_left' hh, if_pos rfl]
  have htake : (secret ++ tr :: (match ts with
      | none => [0] | some t => [1, t])).take secret.length = secret :=
    List.take_left' rfl
  have hdrop : (secret ++ tr :: (match ts with
      | none => [0] | some t => [1, t])).drop secret.length
      = tr :: (match ts with | none => [0] | some t => [1, t]) :=
    List.drop_left' rfl
  have hlen : secret.length ≤ (secret ++ tr :: (match ts with
      | none => [0] | some t => [1, t])).length := by
    simp
  cases ts <;> simp only [] at htake hdrop ⊢ <;> rw [if_pos hlen, hdrop, htake]

/-! ## Message / Response model: `structs.py` -/

/-- `_MessageType` in `structs.py`. -/
inductive MessageType where
  | PING
  | PUSH
  | QUERY
  deriving Repr, DecidableEq

/-- `ResponseType` in `structs.py`. -/
inductive ResponseType where
  | ACK
  | NAK
  deriving Repr, DecidableEq

/-- A small universe of Python runtime values used as payloads.  `boolV` is
separate from `intV` because Python's `bool` is its own class (though a
subclass of `int`, reflected in `isinstance` below). -/
inductive PyVal where
  | intV (n : Int)
  | strV (s : String)
  | boolV (b : Bool)
  | noneV
  deriving Repr, DecidableEq

/-- Python type objects that can be passed as `response_payload_type`. -/
inductive PyType where
  | intT
  | strT
  | boolT
  deriving Repr, DecidableEq

/-- Python's `isinstance` on the value universe.  `isinstance(True, int)`
is true in Python because `bool` subclasses `int`. -/
def isinstance : PyVal → PyType → Bool
  | .intV _, .intT => true
  | .strV _, .strT => true
  | .boolV _, .boolT => true
  | .boolV _, .intT => true
  | _, _ => false

/-- `Response` dataclass: `response_type` and a payload. -/
structure Response where
  response_type : ResponseType
  payload : PyVal
  deriving Repr, DecidableEq

/-- `SimpleResponse.__init__` on a boolean argument: ACK for `True`, NAK
for `False`, with `None` payload.  (On a `ResponseType` argument the status
is passed through unchanged.) -/
def SimpleResponse (value : Bool) : Response :=
  { response_type := if value then .ACK else .NAK, payload := .noneV }

/-- The state of a `QueryMessage` instance: `message_type` is always
`QUERY`, `payload` is the query, and `expected_response_type` is the
optional `response_payload_type` constructor argument. -/
structure QueryMessage where
  payload : PyVal
  expected_response_type : Option PyType := none
  deriving Repr, DecidableEq

/-- `QueryMessage.validate_response`: ACK, and, when an expected response
payload type was declared, the payload is an instance of it. -/
def QueryMessage.validate_response (m : QueryMessage) (response : Response) : Bool :=
  response.response_type = ResponseType.ACK
    && (match m.expected_response_type with
      | none => true
      | some ty => isinstance response.payload ty)

/-- `PingMessage.validate_response`: valid iff the response is an ACK. -/
def PingMessage.validate_response (response : Response) : Bool :=
  response.response_type = ResponseType.ACK

/-- `PushMessage.validate_response`: valid iff the response is an ACK. -/
def PushMessage.validate_response (response : Response) : Bool :=
  response.response_type = ResponseType.ACK

/-! ## Server: `server.py` -/

/-- The classes of the `Message` hierarchy in `structs.py`, used as keys of
the server's callback dictionary and as the runtime class of received
objects. -/
inductive PyClass where
  | message
  | ping
  | push
  | query
  deriving Repr, DecidableEq

/-- `issubclass`/`isinstance` on the `Message` hierarchy: every class is a
subclass of itself, and the three concrete variants subclass `Message`. -/
def isSubclassOf : PyClass → PyClass → Bool
  | _, .message => true
  | .ping, .ping => true
  | .push, .push => true
  | .query, .query => true
  | _, _ => false

/-- Errors raised (or, per the spec's taxonomy, expected) around serving.
The source raises only `KeyError` (no suitable callback in `serve_once`)
and `RuntimeError` (`_close` while locked); `concurrentUseError` and
`lifecycleError` are the spec's names, present so claims about them can be
stated. -/
inductive PyError where
  | keyError
  | runtimeError
  | concurrentUseError
  | lifecycleError
  deriving Repr, DecidableEq

/-- `self.callbacks[response_type] = callback` (`SocketServer.on_message`):
Python-dict insertion — replacing the value of an existing key keeps its
original position, a new key is appended. -/
def dictInsert {β : Type} (k : PyClass) (v : β) :
    List (PyClass × β) → List (PyClass × β)
  | [] => [(k, v)]
  | (k', v') :: rest =>
    if k = k' then (k, v) :: rest else (k', v') :: dictInsert k v rest

/-- `SocketServer._choose_callback`: an exact dictionary lookup on the
received object's class first (`type(obj) in self.callbacks`), otherwise
the first registered entry, in insertion order, whose key class the object
is an instance of; `none` when neither exists. -/
def choose_callback {β : Type} (callbacks : List (PyClass × β))
    (objCls : PyClass) : Option β :=
  match callbacks.lookup objCls with
  | some cb => some cb
  | none =>
    match callbacks.find? (fun kv => isSubclassOf objCls kv.fst) with
    | some kv => some kv.snd
    | none => none

/-- What `serve_once` does with one accepted connection (the body of the
`with self.listener.accept()` block): if a `recv_timeout` was given and no
data arrived within it, the connection is silently dropped; otherwise the
received object is dispatched through `_choose_callback` (`KeyError` when
none matches) and the callback's `Response` is sent back.  `arrived`
models `connection.poll(recv_timeout)`; `recvd` is the object that
`connection.recv()` yields, with runtime class `classOf recvd`. -/
inductive ServeOnceResult where
  | droppedNoData
  | noCallback
  | replied (r : Response)
  deriving Repr, DecidableEq

def serve_once_conn {M : Type} (callbacks : List (PyClass × (M → Response)))
    (classOf : M → PyClass) (recv_timeout : Option Nat) (arrived : Bool)
    (recvd : M) : Except PyError ServeOnceResult :=
  if recv_timeout.isSome && !arrived then .ok .droppedNoData
  else
    match choose_callback callbacks (classOf recvd) with
    | none => .error .keyError
    | some cb => .ok (.replied (cb recvd))

/-- The per-instance state of a `SocketServer`: whether `self.listener` is
bound, the `_shutdown` event flag, and whether `_lock` / `_forever_lock`
are currently held. -/
structure ServerState where
  listenerBound : Bool
  shutdownSet : Bool
  lockHeld : Bool
  foreverLockHeld : Bool
  deriving Repr, DecidableEq

/-- How a call entering `serve_once` begins on a given server state.
`with self._lock:` is a blocking `Lock.acquire()`: when the lock is held
the caller waits for it; otherwise the call proceeds to serve, first
recreating the listener (`self._create_listener()`) when `self.listener is
None`.  `raisesError` is never produced by the source body; it is present
so claims about fail-fast behavior can be stated. -/
inductive ServeStart where
  | waitsForLock
  | serves (rebindsListener : Bool)
  | raisesError (e : PyError)
  deriving Repr, DecidableEq

def serve_once_start (s : ServerState) : ServeStart :=
  if s.lockHeld then .waitsForLock
  else .serves (!s.listenerBound)

/-- `SocketServer._close`: `RuntimeError` when either lock is held,
otherwise closes and clears the listener. -/
def close (s : ServerState) : Except PyError ServerState :=
  if s.lockHeld || s.foreverLockHeld then .error .runtimeError
  else .ok { s with listenerBound := false }

/-- `SocketServer.shutdown`: sets the `_shutdown` event, then `lock_wait`s
both locks (blocking until their holders release them — the returned state
is the one reached once both are free), then `_close()` unbinds the
listener. -/
def shutdown (s : ServerState) : ServerState :=
  { s with shutdownSet := true, lockHeld := false, foreverLockHeld := false,
           listenerBound := false }

/-- The `recv_timeout` arguments passed to successive `serve_once` calls by
`SocketServer.serve_forever`, given the values the `_shutdown` flag shows
at each loop-guard check (`isSet i` is the i-th `self._shutdown.is_set()`)
and a fuel bound on the unbounded `while`.  The source body is
`while not self._shutdown.is_set(): self.serve_once()` — each call passes
the default `recv_timeout = None`. -/
def serve_forever_calls (isSet : Nat → Bool) (i : Nat) : Nat → List (Option Nat)
  | 0 => []
  | fuel + 1 =>
    if isSet i then [] else none :: serve_forever_calls isSet (i + 1) fuel

/-- `serve_forever` on a state whose `_shutdown` flag no longer changes. -/
def serve_forever_calls_of (s : ServerState) (fuel : Nat) : List (Option Nat) :=
  serve_forever_calls (fun _ => s.shutdownSet) 0 fuel

/-! ## Client: `client.py` -/

/-- What can be written to a `multiprocessing.connection.Connection`:
`Connection.send(obj)` transmits a Python object (the connection pickles
it itself), while sending pre-serialized codec output would transmit raw
bytes.  `M` is the type of the message object. -/
inductive SentVal (M : Type) where
  | pyObject (m : M)
  | rawBytes (b : Bytes)
  deriving Repr, DecidableEq

/-- The connection-level events of one attempt of `SocketClient.request`
(`client.py` lines 71–82): open a connection to `self.addr` with
`authkey=self.authkey`, then `connection.send(message)`, then block in
`connection.recv()`. -/
inductive TraceEv (M : Type) where
  | connect (addr : String) (authkey : Bytes)
  | send (v : SentVal M)
  | recvWait
  deriving Repr, DecidableEq

def request_attempt_trace {M : Type} (addr : String) (authkey : Bytes)
    (m : M) : List (TraceEv M) :=
  [.connect addr authkey, .send (.pyObject m), .recvWait]

/-- Whether a trace event sends raw (codec-output) bytes. -/
def TraceEv.isRawBytesSend {M : Type} : TraceEv M → Bool
  | .send (.rawBytes _) => true
  | _ => false

/-- The outcome of one attempt of the retry loop in `request`: a
`ConnectionError` somewhere in connect/send/recv, or a received object
that either is or is not an instance of `Response`. -/
inductive AttemptOutcome where
  | connectionError
  | receivedResponse (r : Response)
  | receivedOther
  deriving Repr, DecidableEq

/-- The errors `request` can raise: the propagated `ConnectionError` of the
last attempt, `TypeError` for a non-`Response` object, `EOFError` when the
loop ends with no response, and `InvalidResponseException` from the
message's validator. -/
inductive ReqError where
  | connectionError
  | typeError
  | eofError
  | invalidResponse
  deriving Repr, DecidableEq

/-- The `for i in range(num_retries)` loop of `SocketClient.request`, run
over the remaining indices, returning how many connection attempts were
made along with the result.  Each iteration that enters the `try` block is
one connection attempt.  On `ConnectionError` at `i == num_retries - 1`
the error is re-raised; earlier ones sleep `retry_time_delay` and retry.
A received `Response` breaks out of the loop; a received non-`Response`
raises `TypeError` (uncaught, since it is not a `ConnectionError`). -/
def request_attempts (attempt : Nat → AttemptOutcome) (num_retries : Nat) :
    List Nat → Nat × Except ReqError (Option Response)
  | [] => (0, .ok none)
  | i :: rest =>
    match attempt i with
    | .receivedResponse r => (1, .ok (some r))
    | .receivedOther => (1, .error .typeError)
    | .connectionError =>
      if i = num_retries - 1 then (1, .error .connectionError)
      else
        let (c, res) := request_attempts attempt num_retries rest
        (c + 1, res)

/-- `SocketClient.request(message, validate_response, num_retries, ...)`:
the retry loop over `range(num_retries)`, then `EOFError` if no response
was collected, then the message's `validate_response` check when
`validate_response` is true.  `attempt i` abstracts the network outcome of
the i-th connection attempt; `validator` is `message.validate_response`.
Returns the number of connection attempts made together with the result. -/
def request (attempt : Nat → AttemptOutcome) (validate_response : Bool)
    (validator : Response → Bool) (num_retries : Nat) :
    Nat × Except ReqError Response :=
  let (c, res) := request_attempts attempt num_retries (List.range num_retries)
  (c, match res with
    | .error e => .error e
    | .ok none => .error .eofError
    | .ok (some r) =>
      if validate_response && !validator r then .error .invalidResponse
      else .ok r)

/-! ## Theorems -/

/-- C1: the envelope codec does NOT round-trip.  `from_bytes` recomputes
the digest over `ser[:digest_len]` — the first 32 bytes — while the tag
appended by `to_bytes` covers the whole pickle, so whenever the pickle is
at least 32 bytes long (a `CoreIPCUnit` pickle always is) and the digest
of the 32-byte prefix differs from the digest of the whole message, every
`to_bytes` output is rejected with `ValueError` ("Invalid hmac") under the
very secret that produced it. -/
theorem from_bytes_rejects_to_bytes {T : Type}
    (hmacD : Bytes → Bytes → Bytes) (dumps : CoreIPCUnit T → Bytes)
    (loads : Bytes → Option (CoreIPCUnit T)) (u : CoreIPCUnit T) (now tnow : Nat)
    (msg : Bytes)
    (hmsg : msg = dumps { u with timestamp := some (now % u.timestamp_resolution) })
    (hlen32 : (hmacD msg u.secret).length = digest_len)
    (hge : digest_len ≤ msg.length)
    (hnc : hmacD (msg.take digest_len) u.secret ≠ hmacD msg u.secret) :
    from_bytes hmacD loads (to_bytes hmacD dumps u now).2 u.secret tnow
      = .error .valueError := by
  have hser : (to_bytes hmacD dumps u now).2 = msg ++ hmacD msg u.secret := by
    rw [to_bytes, hmsg]
  rw [from_bytes, hser]
  have htake : (msg ++ hmacD msg u.secret).take digest_len = msg.take digest_len :=
    List.take_append_of_le_length hge
  have hlen : (msg ++ hmacD msg u.secret).length = msg.length + digest_len := by
    simp [hlen32]
  have hdrop : (msg ++ hmacD msg u.secret).drop
      ((msg ++ hmacD msg u.secret).length - digest_len) = hmacD msg u.secret := by
    rw [hlen, Nat.add_sub_cancel, List.drop_left]
  rw [htake, hdrop, if_neg (fun h => hnc h.symm)]

/-- C1 witness: a concrete unit, encoded with the concrete library models,
is rejected by `from_bytes` under the same secret. -/
theorem from_bytes_rejects_to_bytes_witness :
    from_bytes modelHmac modelLoads
      (to_bytes modelHmac modelDumps
        (⟨7, [1, 2, 3], 5, none⟩ : CoreIPCUnit Nat) 100).2 [1, 2, 3] 0
      = .error .valueError :=
  from_bytes_rejects_to_bytes modelHmac modelDumps modelLoads
    ⟨7, [1, 2, 3], 5, none⟩ 100 0
    (modelDumps ⟨7, [1, 2, 3], 5, some 0⟩) rfl (by decide) (by decide) (by decide)

/-- The decoder as the spec words it (`from_bytes_spec`, slicing
`ser[:-digest_len]`) does round-trip `to_bytes` output: the spec's §8
round-trip property holds of the intended slicing, supporting the reading
that §4.1/§8 state the intent and the source's `ser[:digest_len]` is a
slip. -/
theorem from_bytes_spec_roundtrips {T : Type}
    (hmacD : Bytes → Bytes → Bytes) (dumps : CoreIPCUnit T → Bytes)
    (loads : Bytes → Option (CoreIPCUnit T)) (u : CoreIPCUnit T) (now : Nat)
    (hlen32 : (hmacD (dumps { u with timestamp := some (now % u.timestamp_resolution) })
      u.secret).length = digest_len)
    (hloads : loads (dumps { u with timestamp := some (now % u.timestamp_resolution) })
      = some { u with timestamp := some (now % u.timestamp_resolution) }) :
    from_bytes_spec hmacD loads (to_bytes hmacD dumps u now).2 u.secret
      = .ok { u with timestamp := some (now % u.timestamp_resolution) } := by
  set u' : CoreIPCUnit T := { u with timestamp := some (now % u.timestamp_resolution) }
    with hu'
  have hser : (to_bytes hmacD dumps u now).2 = dumps u' ++ hmacD (dumps u') u.secret := rfl
  rw [from_bytes_spec, hser]
  have hlen : (dumps u' ++ hmacD (dumps u') u.secret).length
      = (dumps u').length + digest_len := by
    simp [hlen32]
  rw [hlen, Nat.add_sub_cancel, List.take_left, List.drop_left, if_pos rfl, hloads]

theorem from_bytes_spec_roundtrips_witness :
    from_bytes_spec modelHmac modelLoads
      (to_bytes modelHmac modelDumps
        (⟨7, [1, 2, 3], 5, none⟩ : CoreIPCUnit Nat) 100).2 [1, 2, 3]
      = .ok ⟨7, [1, 2, 3], 5, some 0⟩ :=
  from_bytes_spec_roundtrips modelHmac modelDumps modelLoads
    ⟨7, [1, 2, 3], 5, none⟩ 100 (by decide) (by decide)

/-- C9: the pickled payload portion of the wire bytes (everything before
the trailing 32-byte tag) is a pickle of the whole unit, secret included:
deserializing it recovers the HMAC secret itself. -/
theorem wire_payload_reveals_secret {T : Type}
    (hmacD : Bytes → Bytes → Bytes) (dumps : CoreIPCUnit T → Bytes)
    (loads : Bytes → Option (CoreIPCUnit T)) (u : CoreIPCUnit T) (now : Nat)
    (hlen32 : (hmacD (dumps { u with timestamp := some (now % u.timestamp_resolution) })
      u.secret).length = digest_len)
    (hloads : loads (dumps { u with timestamp := some (now % u.timestamp_resolution) })
      = some { u with timestamp := some (now % u.timestamp_resolution) }) :
    (loads ((to_bytes hmacD dumps u now).2.take
        ((to_bytes hmacD dumps u now).2.length - digest_len))).map
      CoreIPCUnit.secret = some u.secret := by
  set u' : CoreIPCUnit T := { u with timestamp := some (now % u.timestamp_resolution) }
    with hu'
  have hser : (to_bytes hmacD dumps u now).2 = dumps u' ++ hmacD (dumps u') u.secret := rfl
  rw [hser]
  have hlen : (dumps u' ++ hmacD (dumps u') u.secret).length
      = (dumps u').length + digest_len := by
    simp [hlen32]
  rw [hlen, Nat.add_sub_cancel, List.take_left, hloads]
  rfl

/-- C9 witness: from the concrete wire bytes of a unit with secret
`[1, 2, 3]`, an eavesdropper recovers `[1, 2, 3]` by deserializing the
payload portion. -/
theorem wire_payload_reveals_secret_witness :
    (modelLoads ((to_bytes modelHmac modelDumps
        (⟨7, [1, 2, 3], 5, none⟩ : CoreIPCUnit Nat) 100).2.take
          ((to_bytes modelHmac modelDumps
            (⟨7, [1, 2, 3], 5, none⟩ : CoreIPCUnit Nat) 100).2.length
              - digest_len))).map CoreIPCUnit.secret = some [1, 2, 3] :=
  wire_payload_reveals_secret modelHmac modelDumps modelLoads
    ⟨7, [1, 2, 3], 5, none⟩ 100 (by decide) (by decide)

/-- C10: `from_bytes` performs no freshness check — its body never reads
the clock threaded to it and never inspects the embedded timestamp bucket,
so its entire outcome (success, returned unit, or error) is one and the
same function of the wire bytes and the secret at every decode time: an
envelope replayed arbitrarily late decodes exactly as a fresh one. -/
theorem from_bytes_time_independent {T : Type}
    (hmacD : Bytes → Bytes → Bytes) (loads : Bytes → Option (CoreIPCUnit T))
    (ser secret : Bytes) (t1 t2 : Nat) :
    from_bytes hmacD loads ser secret t1 = from_bytes hmacD loads ser secret t2 := rfl

/-- C5: `QueryMessage.validate_response` accepts a response exactly when
its status is ACK and either no expected response-payload type was
declared or the payload is an instance of the declared type; concretely,
with expected type `int` it accepts `Response(ACK, 73)` and rejects
`Response(ACK, "x")` and `Response(NAK, 73)`. -/
theorem query_validate_response_spec :
    (∀ (m : QueryMessage) (r : Response),
      m.validate_response r = true ↔
        (r.response_type = ResponseType.ACK ∧
          (m.expected_response_type = none ∨
            ∃ ty, m.expected_response_type = some ty
              ∧ isinstance r.payload ty = true)))
    ∧ QueryMessage.validate_response ⟨.strV "q", some .intT⟩ ⟨.ACK, .intV 73⟩ = true
    ∧ QueryMessage.validate_response ⟨.strV "q", some .intT⟩ ⟨.ACK, .strV "x"⟩ = false
    ∧ QueryMessage.validate_response ⟨.strV "q", some .intT⟩ ⟨.NAK, .intV 73⟩ = false := by
  refine ⟨?_, by decide, by decide, by decide⟩
  intro m r
  obtain ⟨p, e⟩ := m
  cases e with
  | none => simp [QueryMessage.validate_response]
  | some ty => simp [QueryMessage.validate_response]

/-- C6 counterexample: with the request-lock held, a call entering
`serve_once` waits for the lock (blocking `Lock.acquire` in
`with self._lock:`); it does not raise — in particular not the spec's
ConcurrentUseError, which appears nowhere in the source. -/
theorem serve_once_fail_fast_counterexample :
    serve_once_start ⟨true, false, true, false⟩ = .waitsForLock
    ∧ ServeStart.waitsForLock ≠ .raisesError .concurrentUseError := by decide

/-- C6 (amended): when the request-lock is already held, a concurrent
`serve_once` on the same instance blocks until the lock is free rather
than failing; no path of `serve_once`'s entry raises an error. -/
theorem serve_once_blocks_on_held_lock :
    (∀ s : ServerState, s.lockHeld = true → serve_once_start s = .waitsForLock)
    ∧ (∀ (s : ServerState) (e : PyError), serve_once_start s ≠ .raisesError e) := by
  constructor
  · intro s h
    simp [serve_once_start, h]
  · intro s e h
    rw [serve_once_start] at h
    by_cases hl : s.lockHeld <;> simp [hl] at h

/-- C6 witness for the amended claim, at a concrete held-lock state. -/
theorem serve_once_blocks_on_held_lock_witness :
    serve_once_start ⟨true, false, true, true⟩ = .waitsForLock :=
  serve_once_blocks_on_held_lock.1 ⟨true, false, true, true⟩ rfl

/-- C7 counterexample: a `serve_forever` run (shutdown flag first observed
set at the second check) makes a `serve_once` call whose `recv_timeout` is
`None`, refuting "every iteration invokes serveOnce with a bounded
(non-None) recvTimeout". -/
theorem serve_forever_timeout_counterexample :
    serve_forever_calls (fun i => decide (1 ≤ i)) 0 5 = [none]
    ∧ ¬ (∀ t ∈ serve_forever_calls (fun i => decide (1 ≤ i)) 0 5, t ≠ none) := by
  decide

/-- C7 (amended): every `serve_once` call made by `serve_forever` passes
`recv_timeout = None` (so an iteration may block unboundedly inside
`serve_once`); the shutdown flag is checked before each iteration, the
loop exits at the first check that observes it set, and when a check
observes it clear the loop runs `serve_once` once more and then re-checks. -/
theorem serve_forever_unbounded_polling :
    (∀ (isSet : Nat → Bool) (i fuel : Nat),
      ∀ t ∈ serve_forever_calls isSet i fuel, t = none)
    ∧ (∀ (isSet : Nat → Bool) (i fuel : Nat), isSet i = true →
      serve_forever_calls isSet i fuel = [])
    ∧ (∀ (isSet : Nat → Bool) (i fuel : Nat), isSet i = false →
      serve_forever_calls isSet i (fuel + 1)
        = none :: serve_forever_calls isSet (i + 1) fuel) := by
  refine ⟨?_, ?_, ?_⟩
  · intro isSet i fuel
    induction fuel generalizing i with
    | zero =>
      intro t ht
      simp [serve_forever_calls] at ht
    | succ n ih =>
      intro t ht
      rw [serve_forever_calls] at ht
      by_cases h : isSet i = true
      · rw [if_pos h] at ht
        exact absurd ht (List.not_mem_nil t)
      · rw [if_neg h] at ht
        cases ht with
        | head => rfl
        | tail _ h1 => exact ih (i + 1) t h1
  · intro isSet i fuel h
    cases fuel <;> simp [serve_forever_calls, h]
  · intro isSet i fuel h
    simp [serve_forever_calls, h]

/-- C7 witness for the amended claim: a run that stops at the first set
check, and one loop unfolding at a clear check. -/
theorem serve_forever_unbounded_polling_witness :
    serve_forever_calls (fun _ => true) 0 5 = []
    ∧ serve_forever_calls (fun i => decide (1 ≤ i)) 0 (4 + 1)
      = none :: serve_forever_calls (fun i => decide (1 ≤ i)) 1 4 :=
  ⟨serve_forever_unbounded_polling.2.1 (fun _ => true) 0 5 rfl,
   serve_forever_unbounded_polling.2.2 (fun i => decide (1 ≤ i)) 0 4 rfl⟩

/-- C8 counterexample: on the state a completed `shutdown()` leaves behind,
a subsequent `serve_once` does not fail — it recreates the listener
(`self.listener is None`) and proceeds to serve; no LifecycleError (absent
from the source) is raised. -/
theorem post_shutdown_lifecycle_counterexample :
    serve_once_start (shutdown ⟨true, false, false, false⟩) = .serves true
    ∧ ServeStart.serves true ≠ .raisesError .lifecycleError := by decide

/-- C8 (amended): `Closed` is not terminal for `serve_once` — after
`shutdown()` the same instance's `serve_once` rebinds the endpoint and
serves; `serve_forever` returns immediately with no `serve_once` call
because the shutdown flag stays set; neither raises. -/
theorem post_shutdown_serves_again :
    (∀ s : ServerState, serve_once_start (shutdown s) = .serves true)
    ∧ (∀ s : ServerState, (shutdown s).shutdownSet = true)
    ∧ (∀ (s : ServerState) (fuel : Nat),
      serve_forever_calls_of (shutdown s) fuel = []) := by
  refine ⟨fun s => rfl, fun s => rfl, fun s fuel => ?_⟩
  cases fuel <;> simp [serve_forever_calls_of, serve_forever_calls, shutdown]

theorem isSubclassOf_refl (c : PyClass) : isSubclassOf c c = true := by
  cases c <;> rfl

theorem find?_supertype_append {β : Type} (c k : PyClass) (cb : β) :
    ∀ (pre : List (PyClass × β)) (post : List (PyClass × β)),
    (∀ kv ∈ pre, isSubclassOf c kv.1 = false) → isSubclassOf c k = true →
    (pre ++ (k, cb) :: post).find? (fun kv => isSubclassOf c kv.fst)
      = some (k, cb) := by
  intro pre
  induction pre with
  | nil =>
    intro post _ hk
    simp [List.find?, hk]
  | cons kv rest ih =>
    intro post hpre hk
    have h1 : isSubclassOf c kv.1 = false := hpre kv (by simp)
    simp only [List.cons_append, List.find?, h1]
    exact ih post (fun kv' h' => hpre kv' (by simp [h'])) hk

theorem lookup_none_of_no_supertype {β : Type} (c : PyClass) :
    ∀ cbs : List (PyClass × β),
    (∀ kv ∈ cbs, isSubclassOf c kv.1 = false) → cbs.lookup c = none := by
  intro cbs
  induction cbs with
  | nil => intro _; rfl
  | cons kv rest ih =>
    intro hall
    obtain ⟨k', v'⟩ := kv
    have h1 : isSubclassOf c k' = false := hall (k', v') (by simp)
    have hne : (c == k') = false := by
      apply Bool.eq_false_iff.mpr
      intro hbe
      have hc : c = k' := eq_of_beq hbe
      rw [← hc, isSubclassOf_refl] at h1
      exact absurd h1 (by simp)
    simp only [List.lookup, hne]
    exact ih (fun kv' h' => hall kv' (by simp [h']))

/-- C4: `_choose_callback` tries an exact dictionary match on the received
object's class first; failing that, it returns the first registered entry,
in registration order, whose key the object is an instance of; when
nothing matches, `serve_once` raises `KeyError` instead of invoking any
callback. -/
theorem dispatch_order (β : Type) :
    (∀ (cbs : List (PyClass × β)) (c : PyClass) (cb : β),
      cbs.lookup c = some cb → choose_callback cbs c = some cb)
    ∧ (∀ (pre post : List (PyClass × β)) (k : PyClass) (cb : β) (c : PyClass),
      (pre ++ (k, cb) :: post).lookup c = none →
      (∀ kv ∈ pre, isSubclassOf c kv.1 = false) →
      isSubclassOf c k = true →
      choose_callback (pre ++ (k, cb) :: post) c = some cb)
    ∧ (∀ (M : Type) (cbs : List (PyClass × (M → Response)))
        (classOf : M → PyClass) (m : M) (arrived : Bool),
      (∀ kv ∈ cbs, isSubclassOf (classOf m) kv.1 = false) →
      serve_once_conn cbs classOf none arrived m = .error .keyError) := by
  refine ⟨?_, ?_, ?_⟩
  · intro cbs c cb h
    rw [choose_callback, h]
  · intro pre post k cb c hlk hpre hk
    rw [choose_callback, hlk, find?_supertype_append c k cb pre post hpre hk]
  · intro M cbs classOf m arrived hall
    have hnone : choose_callback cbs (classOf m) = none := by
      rw [choose_callback, lookup_none_of_no_supertype (classOf m) cbs hall]
      have hfind : cbs.find? (fun kv => isSubclassOf (classOf m) kv.fst) = none := by
        rw [List.find?_eq_none]
        intro kv hkv
        simp [hall kv hkv]
      rw [hfind]
    simp [serve_once_conn, hnone]

/-- C4 witness: a handler registered only for the supertype `Message`
answers a `PingMessage`, and with an empty registry the dispatch step
raises `KeyError`. -/
theorem dispatch_order_witness :
    choose_callback
        (([] : List (PyClass × (Unit → Response)))
          ++ (PyClass.message, fun _ : Unit => SimpleResponse true) :: [])
        PyClass.ping = some (fun _ : Unit => SimpleResponse true)
    ∧ serve_once_conn ([] : List (PyClass × (Unit → Response)))
        (fun _ => PyClass.ping) none true () = .error .keyError :=
  ⟨(dispatch_order (Unit → Response)).2.1 [] [] PyClass.message
      (fun _ : Unit => SimpleResponse true) PyClass.ping rfl (by simp) rfl,
   (dispatch_order (Unit → Response)).2.2 Unit [] (fun _ => PyClass.ping) () true
      (by simp)⟩

theorem request_attempts_all_fail (N : Nat) :
    ∀ (n i : Nat), 1 ≤ n → i + n = N →
    request_attempts (fun _ => .connectionError) N (List.range' i n)
      = (n, .error .connectionError) := by
  intro n
  induction n with
  | zero =>
    intro i h1 _
    omega
  | succ m ih =>
    intro i _ hiN
    rw [List.range'_succ, request_attempts]
    by_cases hm : m = 0
    · subst hm
      have hlast : i = N - 1 := by omega
      simp [hlast, request_attempts]
    · have hne : ¬ (i = N - 1) := by omega
      simp only [hne, if_false]
      rw [ih (i + 1) (by omega) (by omega)]

/-- C3 counterexample: with `num_retries = 3` (the spec's `retries=3`,
matching the parameter and its default `10`) and every connection attempt
failing, `request` makes exactly 3 connection attempts — not the claimed
`3 + 1 = 4` — before propagating the `ConnectionError`. -/
theorem retry_count_counterexample :
    (request (fun _ => .connectionError) true (fun _ => true) 3).1 = 3
    ∧ (3 : Nat) ≠ 4
    ∧ (request (fun _ => .connectionError) true (fun _ => true) 3).2
      = .error .connectionError :=
  ⟨rfl, by decide, rfl⟩

/-- C3 (amended): when every connection attempt fails at the connection
level, `request(message, num_retries=N)` with `N ≥ 1` makes exactly `N`
connection attempts (the loop is `for i in range(num_retries)`, so
`num_retries` is the total attempt count, not a count of extra retries)
and then propagates the `ConnectionError`; with `num_retries=3` it fails
after exactly 3 attempts. -/
theorem request_exhausts_attempts (vr : Bool) (v : Response → Bool) (N : Nat)
    (h : 1 ≤ N) :
    request (fun _ => .connectionError) vr v N = (N, .error .connectionError) := by
  rw [request, List.range_eq_range',
    request_attempts_all_fail N N 0 h (by omega)]

/-- C3 witness: the amended count at `num_retries = 3`. -/
theorem request_exhausts_attempts_witness :
    request (fun _ => .connectionError) true (fun _ => true) 3
      = (3, .error .connectionError) :=
  request_exhausts_attempts true (fun _ => true) 3 (by decide)

/-- C2 counterexample: the object the client passes to `connection.send`
is the `Message` (here a `QueryMessage`) itself; no event of the attempt
sends envelope-codec byte output.  This refutes the claim that the Message
crosses the socket as Envelope Codec (`CoreIPCUnit`) output. -/
theorem wire_codec_counterexample :
    TraceEv.send (SentVal.pyObject (⟨.strV "Hello!", none⟩ : QueryMessage))
      ∈ request_attempt_trace "/tmp/sock" [9] (⟨.strV "Hello!", none⟩ : QueryMessage)
    ∧ (request_attempt_trace "/tmp/sock" [9]
        (⟨.strV "Hello!", none⟩ : QueryMessage)).any TraceEv.isRawBytesSend = false :=
  ⟨List.Mem.tail _ (List.Mem.head _), rfl⟩

/-- C2 (amended): each attempt of `SocketClient.request` opens a
connection with the shared `authkey` (the `multiprocessing.connection`
challenge-response handshake is the only authentication) and sends the
`Message` object itself — the connection's own pickling, never envelope
codec bytes; symmetrically the server dispatches the object obtained from
`connection.recv` straight to the chosen callback and sends its `Response`
object back.  `CoreIPCUnit` is not used on either side. -/
theorem wire_is_plain_objects :
    (∀ (M : Type) (addr : String) (authkey : Bytes) (m : M),
      request_attempt_trace addr authkey m
        = [.connect addr authkey, .send (.pyObject m), .recvWait]
      ∧ (request_attempt_trace addr authkey m).any TraceEv.isRawBytesSend = false)
    ∧ (∀ (M : Type) (cbs : List (PyClass × (M → Response)))
        (classOf : M → PyClass) (m : M) (cb : M → Response) (arrived : Bool),
      choose_callback cbs (classOf m) = some cb →
      serve_once_conn cbs classOf none arrived m = .ok (.replied (cb m))) := by
  constructor
  · intro M addr authkey m
    exact ⟨rfl, rfl⟩
  · intro M cbs classOf m cb arrived h
    simp [serve_once_conn, h]

/-- C2 witness: a registered `Message`-supertype handler replies to the
received object directly. -/
theorem wire_is_plain_objects_witness :
    serve_once_conn [(PyClass.message, fun _ : Unit => SimpleResponse true)]
      (fun _ => PyClass.ping) none true ()
      = .ok (.replied (SimpleResponse true)) :=
  wire_is_plain_objects.2 Unit [(PyClass.message, fun _ => SimpleResponse true)]
    (fun _ => PyClass.ping) () (fun _ => SimpleResponse true) true rfl

end PVHW
